import Mathlib

/-!
Shallow embedding of the go-observability repository: the response-writer
wrappers used by the logging and metrics middleware, the trace-propagation
middleware, the metrics collector middleware, the correlated logger, and the
readiness handler, together with theorems settling the specification claims.

Go machine integers: the HTTP status code is a Go `int`; it is modelled as
`Int` (no arithmetic near overflow occurs anywhere in the embedded code).
Byte slices are modelled as `List Nat`. Calls into the wrapped
`http.ResponseWriter` are recorded as an event trace so that delegation
behaviour is observable.
-/

/-- One delegated call reaching the wrapped (underlying) `http.ResponseWriter`. -/
inductive SinkEvent where
  | writeHeader (code : Int)
  | write (b : List Nat)
  deriving DecidableEq, Repr

/-- The `responseWriter` wrapper state. The logging package
(`src/unnamed/part_000`) and the metrics package (`src/unnamed/part_002`)
each define a `responseWriter` struct with fields `statusCode int` and
`written bool` and byte-identical `WriteHeader`/`Write` methods; the two
differ only in how the middleware initialises `statusCode` (zero value `0`
for logging, `http.StatusOK` for metrics). -/
structure responseWriter where
  statusCode : Int
  written : Bool
  deriving DecidableEq, Repr

/-- `WriteHeader` from both packages:
`if !rw.written { rw.statusCode = code; rw.written = true; rw.ResponseWriter.WriteHeader(code) }`.
Returns the updated state and the calls delegated to the underlying writer. -/
def responseWriter.WriteHeader (rw : responseWriter) (code : Int) :
    responseWriter × List SinkEvent :=
  if rw.written = false then
    ({ statusCode := code, written := true }, [SinkEvent.writeHeader code])
  else
    (rw, [])

/-- `Write` from both packages:
`if !rw.written { rw.WriteHeader(http.StatusOK) }; return rw.ResponseWriter.Write(b)`
(`http.StatusOK` is 200). -/
def responseWriter.Write (rw : responseWriter) (b : List Nat) :
    responseWriter × List SinkEvent :=
  let s := if rw.written = false then rw.WriteHeader 200 else (rw, [])
  (s.1, s.2 ++ [SinkEvent.write b])

/-- A call the downstream handler makes on the wrapper. -/
inductive WCall where
  | writeHeader (code : Int)
  | write (b : List Nat)
  deriving DecidableEq, Repr

/-- Dispatch one downstream call to the wrapper. -/
def stepWriter (rw : responseWriter) : WCall → responseWriter × List SinkEvent
  | WCall.writeHeader code => rw.WriteHeader code
  | WCall.write b => rw.Write b

/-- Run a sequence of downstream calls on the wrapper, collecting the
delegated calls in order. -/
def runWriter (rw : responseWriter) : List WCall → responseWriter × List SinkEvent
  | [] => (rw, [])
  | c :: cs =>
    let s := stepWriter rw c
    let t := runWriter s.1 cs
    (t.1, s.2 ++ t.2)

/-- The logging middleware's wrapper initialisation
(`ww := &responseWriter{ResponseWriter: w}`): Go zero values, `statusCode = 0`. -/
def loggingInit : responseWriter := { statusCode := 0, written := false }

/-- The metrics middleware's wrapper initialisation
(`ww := &responseWriter{ResponseWriter: w, statusCode: http.StatusOK}`). -/
def metricsInit : responseWriter := { statusCode := 200, written := false }

/-- The status that the first downstream call on a fresh wrapper fixes:
an explicit `WriteHeader code` fixes `code`; a body `Write` fixes 200. -/
def firstWriteStatus : WCall → Int
  | WCall.writeHeader code => code
  | WCall.write _ => 200

lemma stepWriter_of_written (rw : responseWriter) (c : WCall)
    (h : rw.written = true) : stepWriter rw c = (rw,
      match c with
      | WCall.write b => [SinkEvent.write b]
      | WCall.writeHeader _ => []) := by
  cases c <;>
    simp [stepWriter, responseWriter.WriteHeader, responseWriter.Write, h]

lemma runWriter_of_written (rw : responseWriter) (cs : List WCall)
    (h : rw.written = true) : (runWriter rw cs).1 = rw := by
  induction cs with
  | nil => rfl
  | cons c cs ih =>
    simp only [runWriter]
    rw [stepWriter_of_written rw c h]
    exact ih

lemma stepWriter_first (rw : responseWriter) (c : WCall)
    (h : rw.written = false) :
    (stepWriter rw c).1 = { statusCode := firstWriteStatus c, written := true } := by
  cases c <;>
    simp [stepWriter, responseWriter.WriteHeader, responseWriter.Write,
      firstWriteStatus, h]

/-- **C1.** For both the logging and the metrics response wrapper, the
recorded status code after any non-empty sequence of downstream calls equals
the status of the first call: `WriteHeader code` first records `code`, a body
`Write` first records 200, and no later `WriteHeader` or `Write` changes the
recorded status. -/
theorem c1_first_write_fixes_status (c : WCall) (cs : List WCall) :
    (runWriter loggingInit (c :: cs)).1.statusCode = firstWriteStatus c ∧
    (runWriter metricsInit (c :: cs)).1.statusCode = firstWriteStatus c := by
  constructor <;>
  · show (runWriter _ (c :: cs)).1.statusCode = _
    simp only [runWriter]
    rw [stepWriter_first _ c rfl, runWriter_of_written _ cs rfl]

/-- **C2 counterexample.** On the logging wrapper, after `WriteHeader 201` a
second `WriteHeader 404` is NOT passed through to the underlying writer: the
delegated-call trace of the sequence contains only the first call. -/
theorem c2_counterexample :
    (runWriter loggingInit [WCall.writeHeader 201, WCall.writeHeader 404]).2 =
      [SinkEvent.writeHeader 201] ∧
    SinkEvent.writeHeader 404 ∉
      (runWriter loggingInit [WCall.writeHeader 201, WCall.writeHeader 404]).2 := by
  decide

/-- **C2 (amended).** After the first status-fixing call (`written = true`),
the wrapper state — in particular the recorded status — never changes again;
a later `Write b` is still delegated to the underlying writer with the same
bytes, but a later `WriteHeader` is suppressed entirely (not delegated). -/
theorem c2_amended_delegation (rw : responseWriter) (c : WCall)
    (h : rw.written = true) :
    (stepWriter rw c).1 = rw ∧
    (stepWriter rw c).2 = (match c with
      | WCall.write b => [SinkEvent.write b]
      | WCall.writeHeader _ => []) := by
  rw [stepWriter_of_written rw c h]
  exact ⟨rfl, rfl⟩

/-- Witness for the C2 amended theorem at a concrete already-written state. -/
theorem c2_amended_delegation_witness :
    (stepWriter { statusCode := 201, written := true } (WCall.writeHeader 404)).1 =
      { statusCode := 201, written := true } ∧
    (stepWriter { statusCode := 201, written := true } (WCall.writeHeader 404)).2 = [] :=
  c2_amended_delegation { statusCode := 201, written := true }
    (WCall.writeHeader 404) rfl

/-!
Metrics collector middleware (`Collector.Middleware`, `src/unnamed/part_002`).
A request is modelled by its method, its raw `r.URL.Path`, and the chi route
context: `none` when `chi.RouteContext(r.Context())` is nil, `some p` when it
exists and `RoutePattern()` returns `p` (possibly empty). Metric mutations
are recorded as an ordered event trace; timing (histogram sample values) is
not modelled, only the label sets the code attaches.
-/

/-- A request as seen by the metrics middleware. -/
structure MetricsRequest where
  method : String
  urlPath : String
  routePattern : Option String
  deriving DecidableEq, Repr

/-- One mutation of the collector's Prometheus metrics. -/
inductive MetricEvent where
  | incInFlight
  | decInFlight
  | incCounter (method path status : String)
  | observe (method path : String)
  deriving DecidableEq, Repr

/-- The path label computed in the middleware's deferred function:
`path := r.URL.Path; if rctx := chi.RouteContext(r.Context()); rctx != nil && rctx.RoutePattern() != "" { path = rctx.RoutePattern() }`. -/
def metricsPathLabel (r : MetricsRequest) : String :=
  match r.routePattern with
  | some p => if p = "" then r.urlPath else p
  | none => r.urlPath

/-- `Collector.Middleware`: skips the `/metrics` endpoint entirely; otherwise
increments the in-flight gauge, wraps the writer with `statusCode: http.StatusOK`,
runs the handler (modelled by its wrapper calls), and in the deferred function
decrements the gauge, increments `requestsTotal` labelled
`(method, path, strconv.Itoa(ww.statusCode))` and observes `requestDuration`
labelled `(method, path)`. -/
def Collector.Middleware (r : MetricsRequest) (calls : List WCall) :
    List MetricEvent :=
  if r.urlPath = "/metrics" then []
  else
    let ww := (runWriter metricsInit calls).1
    let path := metricsPathLabel r
    [MetricEvent.incInFlight, MetricEvent.decInFlight,
     MetricEvent.incCounter r.method path (toString ww.statusCode),
     MetricEvent.observe r.method path]

/-- Modelled from the spec: the status-class label the spec prescribes for the
request counter, "derived by integer-dividing statusCode by 100 and
formatting, e.g. \"2\", \"4\", \"5\"". Present only for comparison with the
label the source actually computes. -/
def specStatusClassLabel (s : Int) : String := toString (s / 100)

/-- **C3 counterexample.** A request finishing with status 201 is counted
with status label "201" (the full code, `strconv.Itoa(ww.statusCode)`), which
differs from the status class "2" the claim prescribes. -/
theorem c3_counterexample :
    Collector.Middleware
        { method := "GET", urlPath := "/items", routePattern := some "/items" }
        [WCall.writeHeader 201] =
      [MetricEvent.incInFlight, MetricEvent.decInFlight,
       MetricEvent.incCounter "GET" "/items" "201",
       MetricEvent.observe "GET" "/items"] ∧
    specStatusClassLabel 201 = "2" ∧ ("201" : String) ≠ "2" := by
  exact ⟨rfl, rfl, by decide⟩

/-- **C3 (amended).** For every request not aimed at the metrics endpoint,
the middleware increments the request counter exactly once, with a status
label equal to the decimal formatting of the full final status code
(`strconv.Itoa`), not its status class; every counter increment it emits
carries that label. -/
theorem c3_amended_full_status_label (r : MetricsRequest) (calls : List WCall)
    (h : r.urlPath ≠ "/metrics") :
    MetricEvent.incCounter r.method (metricsPathLabel r)
        (toString ((runWriter metricsInit calls).1.statusCode)) ∈
      Collector.Middleware r calls ∧
    ∀ m p st, MetricEvent.incCounter m p st ∈ Collector.Middleware r calls →
      m = r.method ∧ p = metricsPathLabel r ∧
      st = toString ((runWriter metricsInit calls).1.statusCode) := by
  simp only [Collector.Middleware, if_neg h]
  constructor
  · simp
  · intro m p st hmem
    simp only [List.mem_cons, List.not_mem_nil, or_false] at hmem
    rcases hmem with h1 | h1 | h1 | h1 <;> injections
    simp_all

/-- Witness for the C3 amended theorem at a concrete request ending in 201. -/
theorem c3_amended_full_status_label_witness :
    MetricEvent.incCounter "GET" "/items" "201" ∈
      Collector.Middleware
        { method := "GET", urlPath := "/items", routePattern := some "/items" }
        [WCall.writeHeader 201] :=
  (c3_amended_full_status_label
    { method := "GET", urlPath := "/items", routePattern := some "/items" }
    [WCall.writeHeader 201] (by decide)).1

/-- **C9 counterexample.** A request whose URL path is `/users/123` but which
matched no chi route (no route context) is counted with the raw interpolated
path as its label: the raw segment `123` leaks into the label values. -/
theorem c9_counterexample :
    MetricEvent.incCounter "GET" "/users/123" "200" ∈
      Collector.Middleware
        { method := "GET", urlPath := "/users/123", routePattern := none }
        [WCall.writeHeader 200] := by
  decide

/-- **C9 (amended).** The path label is the matched chi route pattern whenever
the route context exists and its pattern is non-empty — so for matched routes
only the template appears in counter and histogram labels — but otherwise the
raw URL path is used (raw segments can leak for unmatched routes); and a
request whose URL path is `/metrics` changes no metric at all: no counter
increment, no histogram observation, no gauge movement. -/
theorem c9_amended_path_label (r : MetricsRequest) (calls : List WCall) :
    (∀ p, r.routePattern = some p → p ≠ "" →
      (∀ m pl st, MetricEvent.incCounter m pl st ∈ Collector.Middleware r calls →
        pl = p) ∧
      (∀ m pl, MetricEvent.observe m pl ∈ Collector.Middleware r calls →
        pl = p)) ∧
    (r.urlPath = "/metrics" → Collector.Middleware r calls = []) := by
  constructor
  · intro p hp hne
    have hlabel : metricsPathLabel r = p := by
      simp [metricsPathLabel, hp, hne]
    by_cases hm : r.urlPath = "/metrics"
    · simp [Collector.Middleware, hm]
    · simp only [Collector.Middleware, if_neg hm]
      constructor
      · intro m pl st hmem
        simp only [List.mem_cons, List.not_mem_nil, or_false] at hmem
        rcases hmem with h1 | h1 | h1 | h1 <;> injections
        simp_all
      · intro m pl hmem
        simp only [List.mem_cons, List.not_mem_nil, or_false] at hmem
        rcases hmem with h1 | h1 | h1 | h1 <;> injections
        simp_all
  · intro hm
    simp [Collector.Middleware, hm]

/-- Witness for the C9 amended theorem: a matched route labels with the
template, and a `/metrics` request leaves the metrics untouched. -/
theorem c9_amended_path_label_witness :
    ("/users/\x7bid\x7d" : String) = "/users/\x7bid\x7d" ∧
    Collector.Middleware
      { method := "GET", urlPath := "/metrics", routePattern := some "/metrics" }
      [] = [] :=
  ⟨((c9_amended_path_label
        { method := "GET", urlPath := "/users/7",
          routePattern := some "/users/\x7bid\x7d" }
        [WCall.writeHeader 200]).1
      "/users/\x7bid\x7d" rfl (by decide)).1
      "GET" "/users/\x7bid\x7d" "200" (by decide),
   (c9_amended_path_label
      { method := "GET", urlPath := "/metrics", routePattern := some "/metrics" }
      []).2 rfl⟩

/-!
Logging middleware (`Logger.Middleware`, `src/unnamed/part_000`). The
completion log event is modelled by its level and the fields the code
attaches: `http.method`, `http.path`, `http.status` (the wrapper's captured
status) and `duration_ms` (`duration.Milliseconds()`, integer division of the
elapsed nanoseconds by 1e6; elapsed time is modelled as a `Nat` of
nanoseconds since `time.Since` of a completed request is non-negative).
-/

/-- Zerolog severity levels used by the middleware. -/
inductive LogLevel where
  | debug
  | info
  | warn
  | error
  deriving DecidableEq, Repr

/-- The completion event `"request completed"` with the fields the code sets. -/
structure CompletionEvent where
  level : LogLevel
  method : String
  path : String
  status : Int
  durationMs : Nat
  deriving DecidableEq, Repr

/-- `Logger.Middleware`'s completion logging: wraps the writer with Go zero
values (`loggingInit`), runs the handler (modelled by its wrapper calls),
then picks `logEvent := logger.Info()`, overridden to `Error()` when
`ww.statusCode >= 500` and to `Warn()` when `ww.statusCode >= 400`, and
attaches method, path, `ww.statusCode` and `duration.Milliseconds()`. -/
def Logger.Middleware (method path : String) (calls : List WCall)
    (durationNs : Nat) : CompletionEvent :=
  let ww := (runWriter loggingInit calls).1
  let level :=
    if ww.statusCode ≥ 500 then LogLevel.error
    else if ww.statusCode ≥ 400 then LogLevel.warn
    else LogLevel.info
  { level := level, method := method, path := path,
    status := ww.statusCode, durationMs := durationNs / 1000000 }

/-- **C8.** The completion event's severity is determined solely by the
captured status — error when status ≥ 500, warning when 400 ≤ status < 500,
informational otherwise — and the event carries the method, the path, the
final captured status, and the elapsed duration in whole milliseconds rounded
down (characterised by the division bounds). -/
theorem c8_completion_event (method path : String) (calls : List WCall)
    (ns : Nat) :
    (500 ≤ (runWriter loggingInit calls).1.statusCode →
      (Logger.Middleware method path calls ns).level = LogLevel.error) ∧
    (400 ≤ (runWriter loggingInit calls).1.statusCode →
      (runWriter loggingInit calls).1.statusCode < 500 →
      (Logger.Middleware method path calls ns).level = LogLevel.warn) ∧
    ((runWriter loggingInit calls).1.statusCode < 400 →
      (Logger.Middleware method path calls ns).level = LogLevel.info) ∧
    (Logger.Middleware method path calls ns).method = method ∧
    (Logger.Middleware method path calls ns).path = path ∧
    (Logger.Middleware method path calls ns).status =
      (runWriter loggingInit calls).1.statusCode ∧
    (Logger.Middleware method path calls ns).durationMs * 1000000 ≤ ns ∧
    ns < ((Logger.Middleware method path calls ns).durationMs + 1) * 1000000 := by
  refine ⟨?_, ?_, ?_, rfl, rfl, rfl, ?_, ?_⟩
  · intro h
    simp only [Logger.Middleware]
    rw [if_pos h]
  · intro h1 h2
    simp only [Logger.Middleware]
    rw [if_neg (by omega), if_pos h1]
  · intro h
    simp only [Logger.Middleware]
    rw [if_neg (by omega), if_neg (by omega)]
  · show ns / 1000000 * 1000000 ≤ ns
    omega
  · show ns < (ns / 1000000 + 1) * 1000000
    omega

/-- Witness for C8 at a handler that writes status 503 after 2.5 ms. -/
theorem c8_completion_event_witness :
    (Logger.Middleware "GET" "/x" [WCall.writeHeader 503] 2500000).level =
      LogLevel.error :=
  (c8_completion_event "GET" "/x" [WCall.writeHeader 503] 2500000).1 (by decide)

/-- **C10.** With a handler that never writes: the logging wrapper's recorded
status stays at the Go zero value 0, so the completion event logs status 0 at
informational severity, while the metrics wrapper's status was initialised to
200, so the request is counted under status label "200" — the two wrappers
disagree on the default. -/
theorem c10_default_status_disagreement :
    (runWriter loggingInit []).1.statusCode = 0 ∧
    (Logger.Middleware "GET" "/orders" [] 0).status = 0 ∧
    (Logger.Middleware "GET" "/orders" [] 0).level = LogLevel.info ∧
    (runWriter metricsInit []).1.statusCode = 200 ∧
    MetricEvent.incCounter "GET" "/orders" "200" ∈
      Collector.Middleware
        { method := "GET", urlPath := "/orders", routePattern := some "/orders" }
        [] := by
  refine ⟨rfl, rfl, ?_, rfl, by decide⟩
  decide

/-!
Trace middleware (`src/trace/trace.go`) and the logging package's context
reads (`Logger.WithContext`, `src/unnamed/part_000`). Go's `context.Value`
compares keys by dynamic type AND value; the trace package stores its ids
under its own unexported `contextKey` string type, while the logging package
looks values up under plain untyped `string` keys, so the key type is part of
the model. `uuid.NewString()` is an external dependency; the middleware is
parametrised by the two strings it would generate for this request.
-/

/-- A Go context key: the dynamic type distinguishes the trace package's
`contextKey`, the logging package's `contextKey`, and a plain `string`. -/
inductive GoCtxKey where
  | traceKey (s : String)
  | loggingKey (s : String)
  | strKey (s : String)
  deriving DecidableEq, Repr

/-- A request-scoped Go context, restricted to string-valued entries; newest
entry first, as `context.WithValue` shadows outward. -/
def GoContext := List (GoCtxKey × String)

/-- `ctx.Value(k)`: innermost entry whose key equals `k` by type and value. -/
def ctxValue : GoContext → GoCtxKey → Option String
  | [], _ => none
  | p :: rest, k => if p.1 = k then some p.2 else ctxValue rest k

/-- The inbound correlation headers of a request; `http.Header.Get` returns
the empty string when a header is absent, so absent and empty coincide. -/
structure TraceRequest where
  xTraceID : String
  xRequestID : String
  deriving DecidableEq, Repr

/-- What `trace.Middleware` produces for one request: the two resolved
outbound header values and the context handed to the next handler. -/
structure TraceResult where
  outTraceID : String
  outRequestID : String
  ctx : GoContext

/-- `trace.Middleware` (src/trace/trace.go): read `X-Trace-ID`, generate when
empty; read `X-Request-ID`, generate when empty; store both under the trace
package's typed keys `traceIDKey = contextKey("trace_id")` and
`requestIDKey = contextKey("request_id")`; set both response headers.
`genTrace`/`genRequest` stand for the `uuid.NewString()` results this request
would draw. -/
def traceMiddleware (r : TraceRequest) (genTrace genRequest : String) :
    TraceResult :=
  let traceID := if r.xTraceID = "" then genTrace else r.xTraceID
  let requestID := if r.xRequestID = "" then genRequest else r.xRequestID
  { outTraceID := traceID,
    outRequestID := requestID,
    ctx := [(GoCtxKey.traceKey "request_id", requestID),
            (GoCtxKey.traceKey "trace_id", traceID)] }

/-- `Logger.WithContext` (src/unnamed/part_000): the correlation fields the
logger adds, in order — it queries `ctx.Value("trace_id")`,
`ctx.Value("request_id")` and `ctx.Value("user_id")` with plain untyped
string keys and adds a field for each string value found. -/
def Logger.WithContextFields (ctx : GoContext) : List (String × String) :=
  (match ctxValue ctx (GoCtxKey.strKey "trace_id") with
    | some id => [("trace_id", id)]
    | none => []) ++
  (match ctxValue ctx (GoCtxKey.strKey "request_id") with
    | some id => [("request_id", id)]
    | none => []) ++
  (match ctxValue ctx (GoCtxKey.strKey "user_id") with
    | some id => [("user_id", id)]
    | none => [])

/-- **C5.** For every inbound request: when a correlation header is empty or
absent the corresponding outbound header is the freshly generated token
(non-empty, given that the uuid generator never returns an empty string);
when it is supplied non-empty the outbound header equals the inbound value
exactly; and the resolved values are stored in the request context (under the
trace package's typed keys). -/
theorem c5_trace_roundtrip (r : TraceRequest) (gt gr : String)
    (hgt : gt ≠ "") (hgr : gr ≠ "") :
    (traceMiddleware r gt gr).outTraceID ≠ "" ∧
    (traceMiddleware r gt gr).outRequestID ≠ "" ∧
    (r.xTraceID = "" → (traceMiddleware r gt gr).outTraceID = gt) ∧
    (r.xTraceID ≠ "" → (traceMiddleware r gt gr).outTraceID = r.xTraceID) ∧
    (r.xRequestID = "" → (traceMiddleware r gt gr).outRequestID = gr) ∧
    (r.xRequestID ≠ "" → (traceMiddleware r gt gr).outRequestID = r.xRequestID) ∧
    ctxValue (traceMiddleware r gt gr).ctx (GoCtxKey.traceKey "trace_id") =
      some (traceMiddleware r gt gr).outTraceID ∧
    ctxValue (traceMiddleware r gt gr).ctx (GoCtxKey.traceKey "request_id") =
      some (traceMiddleware r gt gr).outRequestID := by
  by_cases ht : r.xTraceID = "" <;> by_cases hq : r.xRequestID = "" <;>
    simp [traceMiddleware, ctxValue, ht, hq, hgt, hgr]

/-- Witness for C5: an absent trace header resolves to the generated token
and a supplied request header round-trips. -/
theorem c5_trace_roundtrip_witness :
    (traceMiddleware { xTraceID := "", xRequestID := "abc" } "t-gen" "r-gen").outTraceID
        = "t-gen" ∧
    (traceMiddleware { xTraceID := "", xRequestID := "abc" } "t-gen" "r-gen").outRequestID
        = "abc" := by
  have h := c5_trace_roundtrip { xTraceID := "", xRequestID := "abc" }
    "t-gen" "r-gen" (by decide) (by decide)
  exact ⟨h.2.2.1 rfl, h.2.2.2.2.2.1 (by decide)⟩

/-- **C7.** The correlation ids that `trace.Middleware` stored in the request
context are never picked up by `Logger.WithContext`: the ids are present in
the context under the trace package's typed `contextKey` keys, but the logger
queries plain `string` keys, so for every request it adds no `trace_id` and
no `request_id` field — the log events omit both even though the values are
genuinely present in the context. -/
theorem c7_trace_ids_lost (r : TraceRequest) (gt gr : String) :
    Logger.WithContextFields (traceMiddleware r gt gr).ctx = [] ∧
    ctxValue (traceMiddleware r gt gr).ctx (GoCtxKey.traceKey "trace_id") =
      some (traceMiddleware r gt gr).outTraceID ∧
    ctxValue (traceMiddleware r gt gr).ctx (GoCtxKey.traceKey "request_id") =
      some (traceMiddleware r gt gr).outRequestID := by
  exact ⟨rfl, rfl, rfl⟩

/-!
Health checks (`src/unnamed/part_002`, package health). A `Checker` is a Go
`func(ctx) error`; its outcome for the one evaluation is modelled as
`Option String` (`none` for a nil error, `some msg` for an error whose
`Error()` is `msg`). The handler tries to recover a probe's name with
`checker.(interface{ Name() string })` — a dynamic capability probe on the
checker value. The constructors (`DatabaseChecker`, `CustomChecker`,
`RedisChecker`, `HTTPChecker`) all build a `namedChecker` struct but return
its bare `Call` method value, a plain func value: a Go func type has an
empty method set, so the name assertion cannot succeed on it (as written —
an assertion on the non-interface func type `Checker` — it does not even
compile). `GoValue` keeps both shapes so the assertion is modelled rather
than assumed away. -/

/-- A Go value used as a readiness checker: either a plain func value (empty
method set) or a value whose dynamic type exposes `Name() string`. -/
inductive GoValue where
  | funcVal (result : Option String)
  | namedVal (name : String) (result : Option String)
  deriving DecidableEq, Repr

/-- Invoke the checker: `checker(ctx)`, as an `Option String` error. -/
def runChecker : GoValue → Option String
  | GoValue.funcVal r => r
  | GoValue.namedVal _ r => r

/-- The dynamic assertion `checker.(interface{ Name() string })`: succeeds
only when the value's dynamic type has a `Name` method; a func value's
method set is empty, so it fails there. -/
def checkerDynamicName : GoValue → Option String
  | GoValue.funcVal _ => none
  | GoValue.namedVal n _ => some n

/-- `namedChecker.Call` as returned by the constructors: a bound method
value, whose dynamic type is the plain func type — the attached name is not
part of the value's method set. -/
def namedChecker.Call (_name : String) (result : Option String) : GoValue :=
  GoValue.funcVal result

/-- `CustomChecker(name, checker)`: builds a `namedChecker` and returns its
`Call` method value. -/
def CustomChecker (name : String) (result : Option String) : GoValue :=
  namedChecker.Call name result

/-- `DatabaseChecker(db)`: a `namedChecker` named "database" whose probe is
`db.PingContext(ctx)` (outcome modelled by `pingResult`). -/
def DatabaseChecker (pingResult : Option String) : GoValue :=
  namedChecker.Call "database" pingResult

/-- The JSON `CheckResult`; `Error` is `""` when absent (`omitempty`). -/
structure CheckResult where
  name : String
  status : String
  error : String
  deriving DecidableEq, Repr

/-- The JSON `HealthResponse`. -/
structure HealthResponse where
  status : String
  checks : List CheckResult
  deriving DecidableEq, Repr

/-- One iteration of the handler's loop: name from the dynamic assertion with
fallback "dependency"; `result := CheckResult{Name: name, Status: "ok"}`,
overwritten to status "error" carrying `err.Error()` when the probe errs. -/
def checkOne (c : GoValue) : CheckResult :=
  let name := match checkerDynamicName c with
    | some n => n
    | none => "dependency"
  match runChecker c with
  | none => { name := name, status := "ok", error := "" }
  | some msg => { name := name, status := "error", error := msg }

/-- The handler's loop over the registered checkers: accumulates the results
in registration order and ANDs `allOK`. -/
def readinessLoop : List GoValue → List CheckResult × Bool
  | [] => ([], true)
  | c :: cs =>
    let result := checkOne c
    let ok := (runChecker c).isNone
    let rest := readinessLoop cs
    (result :: rest.1, ok && rest.2)

/-- `ReadinessHandler`: runs the loop, responds 200 with body status "ok"
when `allOK`, else 503 with body status "error", always including the
collected checks. -/
def ReadinessHandler (checkers : List GoValue) : Nat × HealthResponse :=
  let r := readinessLoop checkers
  if r.2 then (200, { status := "ok", checks := r.1 })
  else (503, { status := "error", checks := r.1 })

lemma readinessLoop_eq (cs : List GoValue) :
    readinessLoop cs =
      (cs.map checkOne, cs.all fun c => (runChecker c).isNone) := by
  induction cs with
  | nil => rfl
  | cons c cs ih => simp [readinessLoop, ih]

/-- **C4 (code bug).** The registered probe names never reach the response:
a readiness evaluation over `CustomChecker("my-dep", ok)` and
`DatabaseChecker(db)` (ping ok) reports both checks under the fallback name
"dependency" — the dynamic name assertion can never see the `namedChecker`
behind the returned `Call` func value. -/
theorem c4_names_not_propagated :
    (ReadinessHandler [CustomChecker "my-dep" none, DatabaseChecker none]).2.checks =
      [{ name := "dependency", status := "ok", error := "" },
       { name := "dependency", status := "ok", error := "" }] ∧
    ("dependency" : String) ≠ "my-dep" ∧
    ("dependency" : String) ≠ "database" := by
  exact ⟨rfl, by decide, by decide⟩

/-- **C6.** A readiness evaluation responds 200 with body status "ok" iff
every probe returns nil, and 503 with body status "error" otherwise; the
checks list has one entry per probe in registration order (it is the
image of the registration list under the per-probe result map); a probe that
returns an error yields an entry with status "error" carrying the error's
message, and a nil-returning probe yields status "ok". -/
theorem c6_readiness_verdict (cs : List GoValue) :
    (((ReadinessHandler cs).1 = 200 ∧ (ReadinessHandler cs).2.status = "ok") ↔
      ∀ c ∈ cs, runChecker c = none) ∧
    ((¬ ∀ c ∈ cs, runChecker c = none) →
      (ReadinessHandler cs).1 = 503 ∧ (ReadinessHandler cs).2.status = "error") ∧
    (ReadinessHandler cs).2.checks = cs.map checkOne ∧
    (∀ c msg, runChecker c = some msg →
      (checkOne c).status = "error" ∧ (checkOne c).error = msg) ∧
    (∀ c, runChecker c = none → (checkOne c).status = "ok") := by
  have hall : (cs.all fun c => (runChecker c).isNone) = true ↔
      ∀ c ∈ cs, runChecker c = none := by
    rw [List.all_eq_true]
    exact forall₂_congr fun c _ => Option.isNone_iff_eq_none
  refine ⟨?_, ?_, ?_, ?_, ?_⟩
  · by_cases h : (cs.all fun c => (runChecker c).isNone) = true
    · exact iff_of_true (by simp [ReadinessHandler, readinessLoop_eq, h])
        (hall.mp h)
    · refine iff_of_false ?_ fun hc => h (hall.mpr hc)
      simp [ReadinessHandler, readinessLoop_eq, h]
  · intro hno
    have h : ¬ (cs.all fun c => (runChecker c).isNone) = true :=
      fun hc => hno (hall.mp hc)
    simp [ReadinessHandler, readinessLoop_eq, h]
  · by_cases h : (cs.all fun c => (runChecker c).isNone) = true <;>
      simp [ReadinessHandler, readinessLoop_eq, h]
  · intro c msg hmsg
    simp [checkOne, hmsg]
  · intro c hnone
    simp [checkOne, hnone]

/-- Witness for C6 at the spec's example: probe P1 ok, probe P2 failing with
"db down" — HTTP 503, body status "error", and the failing entry carries
status "error" with message "db down". -/
theorem c6_readiness_verdict_witness :
    ((ReadinessHandler [CustomChecker "P1" none, CustomChecker "P2" (some "db down")]).1
        = 503 ∧
      (ReadinessHandler [CustomChecker "P1" none, CustomChecker "P2" (some "db down")]).2.status
        = "error") ∧
    (checkOne (CustomChecker "P2" (some "db down"))).status = "error" ∧
    (checkOne (CustomChecker "P2" (some "db down"))).error = "db down" := by
  have h := c6_readiness_verdict
    [CustomChecker "P1" none, CustomChecker "P2" (some "db down")]
  exact ⟨h.2.1 (by decide),
    h.2.2.2.1 (CustomChecker "P2" (some "db down")) "db down" rfl⟩
